import Mathlib

/-!
Verification of the directory transfer and integrity-verification engine
(`src-tauri/src/transfer.rs`) of the musicManager repository.

The engine is shallowly embedded:

* The bytes of a file are `List Nat` (each byte `< 256`); a file on disk is a
  `FileData` carrying its readable content (`Except String (List Nat)`,
  error = I/O failure with its message) and its metadata length
  (`Option Nat`, `none` = `fs::metadata` fails).
* A directory tree is `FsTree`; `visit_dirs` becomes the `walkFrom` /
  `walkFroms` recursion producing root-relative paths in enumeration
  order, or the I/O error of an unreadable directory.
* SHA-256 itself is kept abstract: every definition takes the compression
  function `sha : List Nat → List Nat` (bytes to 32 digest bytes) as a
  parameter, while the chunked streaming loop, the hex formatting of the
  digest and all bookkeeping around it are modelled concretely.
* The verification target is a `TargetFs`: an existence flag for the root
  plus a relative-path-indexed list of files.
* Machine integers (`u64` sizes, `usize` counts) are modelled as `Nat`:
  the sums involved (file sizes, file counts) cannot approach `2^64`.
-/

/-- A recorded checksum: path relative to the transfer root plus the
lowercase hex digest string (mirrors `struct FileChecksum`). -/
structure FileChecksum where
  path : String
  checksum : String
deriving DecidableEq, Repr

/-- Mirrors `struct TransferManifest`. -/
structure TransferManifest where
  checksums : List FileChecksum
  total_size : Nat
  file_count : Nat
deriving DecidableEq, Repr

/-- Mirrors `struct TransferOptions` (paths are passed separately as
modelled filesystems). -/
structure TransferOptions where
  create_archive : Bool
  verify_transfer : Bool
deriving DecidableEq, Repr

/-- Mirrors `struct TransferResult`. -/
structure TransferResult where
  success : Bool
  message : String
  transferred_files : Nat
  total_size : Nat
deriving DecidableEq, Repr

deriving instance DecidableEq for Except

/-- A file on disk: its content as the byte stream `File::open` + `read`
would deliver (or the I/O error message), and its `fs::metadata` length
(`none` when the metadata call fails). -/
structure FileData where
  content : Except String (List Nat)
  size : Option Nat
deriving DecidableEq, Repr

/-- A directory tree. A directory carries `some e` when reading it
(`fs::read_dir`) fails with I/O error message `e`. -/
inductive FsTree where
  | file (name : String) (data : FileData)
  | dir (name : String) (readErr : Option String) (entries : List FsTree)
deriving Repr

/-- Lowercase hex digit, as `format!("{:x}", ...)` prints one nibble. -/
def hexDigit (n : Nat) : Char :=
  if n < 10 then Char.ofNat (48 + n) else Char.ofNat (87 + n)

/-- Lowercase hex rendering of a byte sequence, two digits per byte
(the `LowerHex` rendering of the 32-byte SHA-256 digest array). -/
def bytesToHex (bs : List Nat) : String :=
  ⟨bs.foldr (fun b acc => hexDigit (b / 16) :: hexDigit (b % 16) :: acc) []⟩

/-- The successive chunks the 8 KiB buffered read loop of
`calculate_file_checksum` delivers: each `file.read` fills at most 8192
bytes and returns 0 only at end of file. -/
def readChunks : List Nat → List (List Nat)
  | [] => []
  | b :: rest => (b :: rest).take 8192 :: readChunks ((b :: rest).drop 8192)
termination_by bs => bs.length
decreasing_by
  simp only [List.length_drop, List.length_cons]
  omega

/-- `calculate_file_checksum`: open the file, feed its content to the
hasher in 8 KiB chunks (`hasher.update` concatenates what it has seen),
and render `hasher.finalize()` as lowercase hex. Open/read failure is
surfaced as the I/O error. -/
def calculate_file_checksum (sha : List Nat → List Nat) (f : FileData) :
    Except String String :=
  match f.content with
  | .error e => .error e
  | .ok bs => .ok (bytesToHex (sha ((readChunks bs).foldl (· ++ ·) [])))

mutual

/-- `visit_dirs` beneath a directory already entered: emit each non-dir
entry (in enumeration order) with its accumulated relative path, recurse
into subdirectories, and abort with the I/O error of the first unreadable
directory. -/
def walkFrom (pre : String) : FsTree → Except String (List (String × FileData))
  | .file name data => .ok [(pre ++ name, data)]
  | .dir name readErr entries =>
    match readErr with
    | some e => .error e
    | none => walkFroms (pre ++ name ++ "/") entries

/-- `visit_dirs` over the entries of one directory, in order. -/
def walkFroms (pre : String) : List FsTree → Except String (List (String × FileData))
  | [] => .ok []
  | t :: ts =>
    match walkFrom pre t with
    | .error e => .error e
    | .ok xs =>
      match walkFroms pre ts with
      | .error e => .error e
      | .ok ys => .ok (xs ++ ys)

end

/-- `visit_dirs` from the root: a root that is not a directory yields no
files (the callback is only invoked on entries found inside directories);
relative paths are taken from the root, so its own name contributes
nothing. -/
def walk : FsTree → Except String (List (String × FileData))
  | .file _ _ => .ok []
  | .dir _ readErr entries =>
    match readErr with
    | some e => .error e
    | none => walkFroms "" entries

/-- `visit_dirs` applied to a path that may not exist: `Path::is_dir` on a
missing path is false, so the walk succeeds with no files. -/
def walkOpt : Option FsTree → Except String (List (String × FileData))
  | none => .ok []
  | some t => walk t

/-- The target root seen by `verify_transfer` and the copy loop: whether
the root path exists, and the files under it indexed by the relative path
joined onto the root (later entries in the list are shadowed by earlier
ones, so copies prepend). -/
structure TargetFs where
  rootExists : Bool
  files : List (String × FileData)

/-- `target_path.join(relative).exists()` / opening that file: first entry
whose relative path matches. -/
def lookupFile (t : TargetFs) (p : String) : Option FileData :=
  (t.files.find? (fun q => q.1 == p)).map (fun q => q.2)

/-- The on-disk size the target reports for a relative path (0 when the
file or its metadata is unavailable); used only to state theorems. -/
def targetFileSize (t : TargetFs) (p : String) : Nat :=
  match lookupFile t p with
  | some fd => fd.size.getD 0
  | none => 0

/-- `Vec::join(sep)` on the collected mismatch strings. -/
def joinWith (sep : String) : List String → String
  | [] => ""
  | [s] => s
  | s :: rest => s ++ sep ++ joinWith sep rest

/-- The `for original_file in &original_manifest.checksums` loop of
`verify_transfer`, carrying the mutable `mismatches` / `verified_size` /
`verified_files`; a checksum I/O failure aborts the whole loop via `?`. -/
def verifyLoop (sha : List Nat → List Nat) (target : TargetFs) :
    List FileChecksum → List String → Nat → Nat →
    Except String (List String × Nat × Nat)
  | [], mis, vsize, vfiles => .ok (mis, vsize, vfiles)
  | e :: rest, mis, vsize, vfiles =>
    match lookupFile target e.path with
    | none => verifyLoop sha target rest (mis ++ ["Missing file: " ++ e.path]) vsize vfiles
    | some fd =>
      match calculate_file_checksum sha fd with
      | .error err => .error ("Failed to calculate checksum: " ++ err)
      | .ok c =>
        if c ≠ e.checksum then
          verifyLoop sha target rest (mis ++ ["Checksum mismatch for: " ++ e.path]) vsize vfiles
        else
          match fd.size with
          | some n => verifyLoop sha target rest mis (vsize + n) (vfiles + 1)
          | none => verifyLoop sha target rest mis vsize vfiles

/-- `verify_transfer`: existence check on the target root, then the entry
loop, then assembly of the `TransferResult`. -/
def verify_transfer (sha : List Nat → List Nat) (target : TargetFs)
    (original_manifest : TransferManifest) : Except String TransferResult :=
  if target.rootExists then
    match verifyLoop sha target original_manifest.checksums [] 0 0 with
    | .error e => .error e
    | .ok (mismatches, verified_size, verified_files) =>
      .ok { success := mismatches.isEmpty
            message :=
              if mismatches.isEmpty then
                "Successfully verified " ++ toString verified_files ++ " files"
              else
                "Transfer verification failed:\n" ++ joinWith "\n" mismatches
            transferred_files := verified_files
            total_size := verified_size }
  else
    .error "Target path does not exist"

/-- The closure `calculate_directory_checksum` passes to `visit_dirs`,
run over the walked files in order: a file whose checksum or metadata
call fails is skipped; otherwise size and count are accumulated and the
relative path (its prefix-stripping always succeeds for walked files) is
recorded. -/
def manifestLoop (sha : List Nat → List Nat) :
    List (String × FileData) → TransferManifest → TransferManifest
  | [], m => m
  | (p, fd) :: rest, m =>
    match calculate_file_checksum sha fd with
    | .error _ => manifestLoop sha rest m
    | .ok c =>
      match fd.size with
      | none => manifestLoop sha rest m
      | some n =>
        manifestLoop sha rest
          { checksums := m.checksums ++ [{ path := p, checksum := c }]
            total_size := m.total_size + n
            file_count := m.file_count + 1 }

/-- `calculate_directory_checksum`: missing source is an error, a walk
failure is wrapped, otherwise the manifest is accumulated file by file. -/
def calculate_directory_checksum (sha : List Nat → List Nat)
    (source : Option FsTree) : Except String TransferManifest :=
  match source with
  | none => .error "Source path does not exist"
  | some root =>
    match walk root with
    | .error e => .error ("Failed to walk directory: " ++ e)
    | .ok files =>
      .ok (manifestLoop sha files { checksums := [], total_size := 0, file_count := 0 })

/-- `create_archive`: walk the source appending each file under its
relative path. `archive.append_path_with_name` reads the file; its result
is discarded (`let _ = ...`), so an unreadable file is silently omitted.
Creating the archive file and `archive.finish()` are modelled as
succeeding; the only error is a failed walk. The archive value is its
entry list (entry name, content bytes). -/
def create_archive (source : Option FsTree) : Except String (List (String × List Nat)) :=
  match walkOpt source with
  | .error e => .error e
  | .ok files =>
    .ok (files.filterMap (fun pf =>
      match pf.2.content with
      | .ok bs => some (pf.1, bs)
      | .error _ => none))

/-- `extract_archive`: unpack every entry into the target root, its
content intact; extraction I/O is modelled as succeeding. -/
def extract_archive (entries : List (String × List Nat)) (t : TargetFs) : TargetFs :=
  { rootExists := true
    files := (entries.map (fun e => (e.1, { content := .ok e.2, size := some e.2.length }))) ++ t.files }

/-- The direct-copy closure of `transfer_files`, over the walked files in
order, carrying `copied_files`, `total_copied_size` and the target state:
a file is counted only when its metadata call and the copy both succeed
(`fs::copy` is modelled as succeeding exactly when the source file is
readable); the copied size is the source metadata length, while the
copied file lands with its content bytes. -/
def copyLoop : List (String × FileData) → Nat → Nat → List (String × FileData) →
    Nat × Nat × List (String × FileData)
  | [], copied, csize, tgt => (copied, csize, tgt)
  | (p, fd) :: rest, copied, csize, tgt =>
    match fd.size with
    | none => copyLoop rest copied csize tgt
    | some n =>
      match fd.content with
      | .error _ => copyLoop rest copied csize tgt
      | .ok bs =>
        copyLoop rest (copied + 1) (csize + n)
          ((p, { content := .ok bs, size := some bs.length }) :: tgt)

/-- Step 3 of `transfer_files`: when verification was requested the
result of the verifier is returned, with the manifest totals substituted if
the verifier counted zero files; otherwise the terminal result reports
the manifest counts (0 when no manifest was captured). -/
def transferFinish (sha : List Nat → List Nat) (target : TargetFs)
    (verify : Bool) (manifest : Option TransferManifest) : Except String TransferResult :=
  match verify, manifest with
  | true, some m =>
    match verify_transfer sha target m with
    | .error e => .error e
    | .ok r =>
      .ok (if r.transferred_files = 0 then
             { r with transferred_files := m.file_count, total_size := m.total_size }
           else r)
  | _, _ =>
    .ok { success := true
          message := "Transfer completed successfully"
          transferred_files := match manifest with | some m => m.file_count | none => 0
          total_size := match manifest with | some m => m.total_size | none => 0 }

/-- `transfer_files`: optional manifest capture on the source, then the
archive or direct-copy transport into the target, then the optional
verification; progress emissions change no state and are not modelled. -/
def transfer_files (sha : List Nat → List Nat) (source : Option FsTree)
    (target : TargetFs) (options : TransferOptions) : Except String TransferResult :=
  match (if options.verify_transfer then
           match calculate_directory_checksum sha source with
           | .error e => .error e
           | .ok m => .ok (some m)
         else .ok none : Except String (Option TransferManifest)) with
  | .error e => .error e
  | .ok manifest =>
    if options.create_archive then
      match create_archive source with
      | .error e => .error ("Failed to create archive: " ++ e)
      | .ok entries =>
        transferFinish sha (extract_archive entries target) options.verify_transfer manifest
    else
      match walkOpt source with
      | .error e => .error ("Failed to copy files: " ++ e)
      | .ok files =>
        match copyLoop files 0 0 target.files with
        | (copied, _, newFiles) =>
          if copied = 0 then .error "No files were copied"
          else
            transferFinish sha
              { rootExists := target.rootExists || !files.isEmpty, files := newFiles }
              options.verify_transfer manifest

/-- The entry the manifest records for a walked file, when its checksum
and metadata calls both succeed, paired with the metadata size that is
accumulated into `total_size`; used to characterise `manifestLoop`. -/
def includedEntry (sha : List Nat → List Nat) (pf : String × FileData) :
    Option (FileChecksum × Nat) :=
  match calculate_file_checksum sha pf.2, pf.2.size with
  | .ok c, some n => some ({ path := pf.1, checksum := c }, n)
  | _, _ => none

/-- The metadata size `verify_transfer` reads for a manifest entry, when
the target file and its metadata are available. -/
def entrySizeOpt (target : TargetFs) (e : FileChecksum) : Option Nat :=
  (lookupFile target e.path).bind (fun fd => fd.size)

/-- A manifest entry whose target file exists, is readable, and hashes to
the recorded checksum. -/
def entryMatches (sha : List Nat → List Nat) (target : TargetFs) (e : FileChecksum) : Prop :=
  ∃ fd bs, lookupFile target e.path = some fd ∧ fd.content = .ok bs ∧
    bytesToHex (sha bs) = e.checksum

/-- A manifest entry whose target file exists, is readable, hashes to the
recorded checksum, and whose metadata is readable. -/
def entryOkFull (sha : List Nat → List Nat) (target : TargetFs) (e : FileChecksum) : Prop :=
  ∃ fd bs n, lookupFile target e.path = some fd ∧ fd.content = .ok bs ∧
    bytesToHex (sha bs) = e.checksum ∧ fd.size = some n

/-- A manifest entry that does not abort the verification loop: its
target file is either absent (a recorded discrepancy) or readable. -/
def entryNoAbort (target : TargetFs) (e : FileChecksum) : Prop :=
  lookupFile target e.path = none ∨
    ∃ fd bs, lookupFile target e.path = some fd ∧ fd.content = .ok bs

/-- A lowercase hexadecimal digit. -/
def isLowerHexChar (c : Char) : Bool :=
  (48 ≤ c.toNat && c.toNat ≤ 57) || (97 ≤ c.toNat && c.toNat ≤ 102)

/-- Modelled from the spec: the Checksum Engine contract of §4.2 — the
SHA-256 digest of the entire file content, computed in one pass and
rendered as lowercase hex. The chunked streaming loop of the implementation
is compared against this. -/
def spec_sha256_hex (sha : List Nat → List Nat) (bs : List Nat) : String :=
  bytesToHex (sha bs)

/-- A concrete stand-in for the abstract SHA-256 compression function,
used to instantiate theorems on concrete inputs. -/
def shaZ : List Nat → List Nat := fun _ => []

/-- A concrete stand-in digest function producing 32 zero bytes. -/
def sha32 : List Nat → List Nat := fun _ => List.replicate 32 0

/-- A concrete source tree holding one readable three-byte file. -/
def srcA : FsTree := .dir "music" none [.file "a.txt" { content := .ok [1, 2, 3], size := some 3 }]

/-- A concrete source tree holding one file that exists but cannot be
read (so appending it to an archive fails). -/
def srcBad : FsTree := .dir "music" none [.file "bad.mp3" { content := .error "Permission denied", size := some 7 }]

/-- Two concrete trees with the same files enumerated in different
orders, modelling two enumerations of one unchanged directory. -/
def treeAB : FsTree := .dir "r" none
  [.file "a" { content := .ok [1], size := some 1 },
   .file "b" { content := .ok [2], size := some 1 }]

/-- The same directory as `treeAB`, enumerated in the opposite order. -/
def treeBA : FsTree := .dir "r" none
  [.file "b" { content := .ok [2], size := some 1 },
   .file "a" { content := .ok [1], size := some 1 }]

theorem foldl_append_eq (l : List (List Nat)) (a : List Nat) :
    l.foldl (· ++ ·) a = a ++ l.flatten := by
  induction l generalizing a with
  | nil => simp
  | cons x xs ih => simp [ih]

theorem readChunks_flatten : ∀ bs : List Nat, (readChunks bs).flatten = bs
  | [] => by simp [readChunks]
  | b :: rest => by
    rw [readChunks]
    simp only [List.flatten_cons]
    rw [readChunks_flatten ((b :: rest).drop 8192)]
    exact List.take_append_drop _ _
termination_by bs => bs.length
decreasing_by
  simp only [List.length_drop, List.length_cons]
  omega

theorem calculate_file_checksum_ok (sha : List Nat → List Nat) (fd : FileData)
    (bs : List Nat) (h : fd.content = .ok bs) :
    calculate_file_checksum sha fd = .ok (bytesToHex (sha bs)) := by
  simp only [calculate_file_checksum, h]
  rw [foldl_append_eq, List.nil_append, readChunks_flatten]

theorem calculate_file_checksum_error (sha : List Nat → List Nat) (fd : FileData)
    (e : String) (h : fd.content = .error e) :
    calculate_file_checksum sha fd = .error e := by
  simp only [calculate_file_checksum, h]

theorem hexDigit_lower : ∀ n < 16, isLowerHexChar (hexDigit n) = true := by decide

theorem hexFoldr_length (bs : List Nat) :
    (bs.foldr (fun b acc => hexDigit (b / 16) :: hexDigit (b % 16) :: acc)
      ([] : List Char)).length = 2 * bs.length := by
  induction bs with
  | nil => rfl
  | cons b l ih =>
    simp only [List.foldr_cons, List.length_cons, ih, List.length_cons]
    omega

theorem hexFoldr_chars (bs : List Nat) (hb : ∀ b ∈ bs, b < 256) :
    ∀ c ∈ bs.foldr (fun b acc => hexDigit (b / 16) :: hexDigit (b % 16) :: acc)
      ([] : List Char), isLowerHexChar c = true := by
  induction bs with
  | nil => intro c hc; simp at hc
  | cons b l ih =>
    intro c hc
    have hb1 : b < 256 := hb b (by simp)
    simp only [List.foldr_cons, List.mem_cons] at hc
    rcases hc with rfl | hc2
    · exact hexDigit_lower _ (Nat.div_lt_of_lt_mul (by omega))
    rcases hc2 with rfl | hc3
    · exact hexDigit_lower _ (Nat.mod_lt _ (by omega))
    · exact ih (fun x hx => hb x (by simp [hx])) c hc3

theorem bytesToHex_length (bs : List Nat) : (bytesToHex bs).length = 2 * bs.length :=
  hexFoldr_length bs

theorem bytesToHex_chars (bs : List Nat) (hb : ∀ b ∈ bs, b < 256) :
    ∀ c ∈ (bytesToHex bs).data, isLowerHexChar c = true :=
  hexFoldr_chars bs hb

theorem verifyLoop_append (sha : List Nat → List Nat) (target : TargetFs)
    (l1 l2 : List FileChecksum) (mis : List String) (vs vf : Nat) :
    verifyLoop sha target (l1 ++ l2) mis vs vf =
      match verifyLoop sha target l1 mis vs vf with
      | .error e => .error e
      | .ok (m, s, f) => verifyLoop sha target l2 m s f := by
  induction l1 generalizing mis vs vf with
  | nil => simp [verifyLoop]
  | cons e rest ih =>
    simp only [List.cons_append, verifyLoop]
    split
    · exact ih _ _ _
    · split
      · rfl
      · split
        · exact ih _ _ _
        · split
          · exact ih _ _ _
          · exact ih _ _ _

theorem verifyLoop_allMatch (sha : List Nat → List Nat) (target : TargetFs)
    (l : List FileChecksum) (mis : List String) (vs vf : Nat)
    (h : ∀ e ∈ l, entryMatches sha target e) :
    verifyLoop sha target l mis vs vf =
      .ok (mis, vs + (l.filterMap (entrySizeOpt target)).sum,
           vf + (l.filterMap (entrySizeOpt target)).length) := by
  induction l generalizing mis vs vf with
  | nil => simp [verifyLoop]
  | cons e rest ih =>
    obtain ⟨fd, bs, hl, hc, hk⟩ := h e (by simp)
    have hrest : ∀ x ∈ rest, entryMatches sha target x :=
      fun x hx => h x (by simp [hx])
    have hes : entrySizeOpt target e = fd.size := by
      simp [entrySizeOpt, hl]
    simp only [verifyLoop, hl, calculate_file_checksum_ok sha fd bs hc, hk]
    rw [if_neg (by simp)]
    rcases hfd : fd.size with _ | n
    · simp only [hfd]
      rw [ih _ _ _ hrest]
      simp [List.filterMap_cons, hes, hfd]
    · simp only [hfd]
      rw [ih _ _ _ hrest]
      simp only [List.filterMap_cons, hes, hfd, List.sum_cons, List.length_cons,
        Except.ok.injEq, Prod.mk.injEq, eq_self_iff_true, true_and]
      omega

theorem verifyLoop_noAbort (sha : List Nat → List Nat) (target : TargetFs)
    (l : List FileChecksum) (mis : List String) (vs vf : Nat)
    (h : ∀ e ∈ l, entryNoAbort target e) :
    ∃ mis2 vs2 vf2, verifyLoop sha target l mis vs vf = .ok (mis2, vs2, vf2) := by
  induction l generalizing mis vs vf with
  | nil => exact ⟨mis, vs, vf, rfl⟩
  | cons e rest ih =>
    have hrest : ∀ x ∈ rest, entryNoAbort target x :=
      fun x hx => h x (by simp [hx])
    rcases h e (by simp) with hnone | ⟨fd, bs, hl, hc⟩
    · simp only [verifyLoop, hnone]
      exact ih _ _ _ hrest
    · simp only [verifyLoop, hl, calculate_file_checksum_ok sha fd bs hc]
      by_cases hne : bytesToHex (sha bs) ≠ e.checksum
      · rw [if_pos hne]
        exact ih _ _ _ hrest
      · rw [if_neg hne]
        rcases hfd : fd.size with _ | n
        · exact ih _ _ _ hrest
        · exact ih _ _ _ hrest

theorem verifyLoop_error_shape (sha : List Nat → List Nat) (target : TargetFs)
    (l : List FileChecksum) (mis : List String) (vs vf : Nat) (msg : String)
    (h : verifyLoop sha target l mis vs vf = .error msg) :
    ∃ s, msg = "Failed to calculate checksum: " ++ s := by
  induction l generalizing mis vs vf with
  | nil => simp [verifyLoop] at h
  | cons e rest ih =>
    simp only [verifyLoop] at h
    split at h
    · exact ih _ _ _ h
    · split at h
      · injection h with h2
        exact ⟨_, h2.symm⟩
      · split at h
        · exact ih _ _ _ h
        · split at h
          · exact ih _ _ _ h
          · exact ih _ _ _ h

theorem verify_transfer_error_shape (sha : List Nat → List Nat) (target : TargetFs)
    (m : TransferManifest) (msg : String)
    (h : verify_transfer sha target m = .error msg) :
    msg = "Target path does not exist" ∨
      ∃ s, msg = "Failed to calculate checksum: " ++ s := by
  unfold verify_transfer at h
  by_cases hr : target.rootExists = true
  · rw [if_pos hr] at h
    rcases hv : verifyLoop sha target m.checksums [] 0 0 with e | st
    · rw [hv] at h
      injection h with h2
      exact Or.inr (h2 ▸ verifyLoop_error_shape sha target m.checksums [] 0 0 e hv)
    · rw [hv] at h
      obtain ⟨mis, vs, vf⟩ := st
      simp at h
  · rw [if_neg hr] at h
    injection h with h2
    exact Or.inl h2.symm

theorem manifestLoop_spec (sha : List Nat → List Nat)
    (files : List (String × FileData)) (m : TransferManifest) :
    manifestLoop sha files m =
      { checksums := m.checksums ++ (files.filterMap (includedEntry sha)).map Prod.fst,
        total_size := m.total_size + ((files.filterMap (includedEntry sha)).map Prod.snd).sum,
        file_count := m.file_count + (files.filterMap (includedEntry sha)).length } := by
  induction files generalizing m with
  | nil => simp [manifestLoop]
  | cons pf rest ih =>
    obtain ⟨p, fd⟩ := pf
    simp only [manifestLoop]
    rcases hc : calculate_file_checksum sha fd with e | c
    · simp only [hc]
      rw [ih]
      have hinc : includedEntry sha (p, fd) = none := by
        simp [includedEntry, hc]
      simp [List.filterMap_cons, hinc]
    · simp only [hc]
      rcases hs : fd.size with _ | n
      · simp only [hs]
        rw [ih]
        have hinc : includedEntry sha (p, fd) = none := by
          simp [includedEntry, hc, hs]
        simp [List.filterMap_cons, hinc]
      · simp only [hs]
        rw [ih]
        have hinc : includedEntry sha (p, fd) = some ({ path := p, checksum := c }, n) := by
          simp [includedEntry, hc, hs]
        simp only [List.filterMap_cons, hinc, List.map_cons, List.sum_cons,
          List.length_cons, TransferManifest.mk.injEq]
        refine ⟨by simp, by omega, by omega⟩

theorem entrySizeOpt_of_full (sha : List Nat → List Nat) (target : TargetFs)
    (l : List FileChecksum) (h : ∀ e ∈ l, entryOkFull sha target e) :
    l.filterMap (entrySizeOpt target) = l.map (fun e => targetFileSize target e.path) := by
  induction l with
  | nil => rfl
  | cons e rest ih =>
    obtain ⟨fd, bs, n, hl, hc, hk, hs⟩ := h e (by simp)
    have hrest : ∀ x ∈ rest, entryOkFull sha target x := fun x hx => h x (by simp [hx])
    simp only [List.filterMap_cons, List.map_cons]
    have h1 : entrySizeOpt target e = some n := by simp [entrySizeOpt, hl, hs]
    have h2 : targetFileSize target e.path = n := by simp [targetFileSize, hl, hs]
    simp [h1, h2, ih hrest]

theorem entryOkFull_matches (sha : List Nat → List Nat) (target : TargetFs)
    (e : FileChecksum) (h : entryOkFull sha target e) : entryMatches sha target e := by
  obtain ⟨fd, bs, n, hl, hc, hk, hs⟩ := h
  exact ⟨fd, bs, hl, hc, hk⟩

theorem checksum_error_ne_no_files (s : String) :
    "Failed to calculate checksum: " ++ s ≠ "No files were copied" := by
  intro h
  have hlen := congrArg String.length h
  rw [String.length_append] at hlen
  have h1 : ("Failed to calculate checksum: " : String).length = 30 := by decide
  have h2 : ("No files were copied" : String).length = 20 := by decide
  omega

theorem target_error_ne_no_files :
    ("Target path does not exist" : String) ≠ "No files were copied" := by decide

theorem calculate_directory_checksum_ok (sha : List Nat → List Nat) (root : FsTree)
    (files : List (String × FileData)) (hw : walk root = .ok files) :
    calculate_directory_checksum sha (some root) =
      .ok { checksums := (files.filterMap (includedEntry sha)).map Prod.fst,
            total_size := ((files.filterMap (includedEntry sha)).map Prod.snd).sum,
            file_count := (files.filterMap (includedEntry sha)).length } := by
  simp only [calculate_directory_checksum]
  rw [hw]
  dsimp only
  rw [manifestLoop_spec]
  simp

/-- C10: verify_transfer applied to a manifest with an empty checksums
sequence, against an existing target root, returns Ok with success = true,
transferred_files = 0 and total_size = 0 — nothing on disk is checked. -/
theorem c10_verify_empty_manifest (sha : List Nat → List Nat) (target : TargetFs)
    (m : TransferManifest) (hroot : target.rootExists = true)
    (hempty : m.checksums = []) :
    verify_transfer sha target m =
      .ok { success := true, message := "Successfully verified 0 files",
            transferred_files := 0, total_size := 0 } := by
  unfold verify_transfer
  rw [if_pos hroot, hempty]
  rfl

/-- Witness instantiating c10_verify_empty_manifest on a concrete target
and manifest. -/
theorem c10_witness :
    verify_transfer shaZ { rootExists := true, files := [] }
        { checksums := [], total_size := 0, file_count := 0 } =
      .ok { success := true, message := "Successfully verified 0 files",
            transferred_files := 0, total_size := 0 } :=
  c10_verify_empty_manifest shaZ _ _ rfl rfl

/-- C1 fails as stated: the claim quantifies over every manifest whose
entries all verify, but verify_transfer never reads file_count, so a
manifest with empty checksums and file_count = 1 satisfies every
hypothesis vacuously while transferred_files = 0 differs from
file_count = 1. -/
theorem c1_counterexample :
    verify_transfer shaZ { rootExists := true, files := [] }
        { checksums := [], total_size := 0, file_count := 1 } =
      .ok { success := true, message := "Successfully verified 0 files",
            transferred_files := 0, total_size := 0 } ∧
    (1 : Nat) ≠ 0 :=
  ⟨rfl, by decide⟩

/-- C1 (amended): additionally assuming the manifest invariant
file_count = length of checksums (which calculate_directory_checksum
guarantees), a target on which every recorded entry exists, hashes to the
recorded checksum and has readable metadata makes verify_transfer return
Ok with success = true, transferred_files = file_count, and total_size
the sum of the on-disk sizes of the recorded files. -/
theorem c1_verified_target (sha : List Nat → List Nat) (target : TargetFs)
    (m : TransferManifest) (hroot : target.rootExists = true)
    (hcount : m.file_count = m.checksums.length)
    (hall : ∀ e ∈ m.checksums, entryOkFull sha target e) :
    verify_transfer sha target m =
      .ok { success := true,
            message := "Successfully verified " ++ toString m.file_count ++ " files",
            transferred_files := m.file_count,
            total_size := (m.checksums.map (fun e => targetFileSize target e.path)).sum } := by
  unfold verify_transfer
  rw [if_pos hroot,
    verifyLoop_allMatch sha target m.checksums [] 0 0
      (fun e he => entryOkFull_matches sha target e (hall e he)),
    entrySizeOpt_of_full sha target m.checksums hall]
  simp [hcount]

/-- Witness instantiating c1_verified_target on a one-file target whose
digest matches the recorded checksum. -/
theorem c1_witness :
    verify_transfer shaZ
        { rootExists := true, files := [("a.txt", { content := .ok [7], size := some 4 })] }
        { checksums := [{ path := "a.txt", checksum := "" }], total_size := 4, file_count := 1 } =
      .ok { success := true, message := "Successfully verified 1 files",
            transferred_files := 1, total_size := 4 } := by
  have h := c1_verified_target shaZ
    { rootExists := true, files := [("a.txt", { content := .ok [7], size := some 4 })] }
    { checksums := [{ path := "a.txt", checksum := "" }], total_size := 4, file_count := 1 }
    rfl rfl
    (by
      intro e he
      rw [List.mem_singleton] at he
      subst he
      exact ⟨{ content := .ok [7], size := some 4 }, [7], 4, rfl, rfl, rfl, rfl⟩)
  exact h

/-- C2: when the file of exactly one recorded entry exists but hashes to a
different digest while every other entry exists and matches,
verify_transfer returns Ok with success = false and a message holding
exactly one mismatch line naming the relative path of that file; no error is
raised on the mismatch. -/
theorem c2_single_mismatch (sha : List Nat → List Nat) (target : TargetFs)
    (m : TransferManifest) (pre post : List FileChecksum) (e : FileChecksum)
    (fd : FileData) (bs : List Nat)
    (hroot : target.rootExists = true)
    (hsplit : m.checksums = pre ++ e :: post)
    (hpre : ∀ x ∈ pre, entryMatches sha target x)
    (hpost : ∀ x ∈ post, entryMatches sha target x)
    (hl : lookupFile target e.path = some fd)
    (hc : fd.content = .ok bs)
    (hmis : bytesToHex (sha bs) ≠ e.checksum) :
    verify_transfer sha target m =
      .ok { success := false,
            message := "Transfer verification failed:\n" ++
              ("Checksum mismatch for: " ++ e.path),
            transferred_files := ((pre ++ post).filterMap (entrySizeOpt target)).length,
            total_size := ((pre ++ post).filterMap (entrySizeOpt target)).sum } := by
  unfold verify_transfer
  rw [if_pos hroot, hsplit, verifyLoop_append,
    verifyLoop_allMatch sha target pre [] 0 0 hpre]
  dsimp only
  simp only [verifyLoop, hl, calculate_file_checksum_ok sha fd bs hc]
  rw [if_pos hmis,
    verifyLoop_allMatch sha target post _ _ _ hpost]
  dsimp only
  simp only [List.nil_append, List.isEmpty_cons, joinWith, List.filterMap_append,
    List.sum_append, List.length_append, Except.ok.injEq, TransferResult.mk.injEq]
  refine ⟨trivial, rfl, by omega, by omega⟩

/-- Witness instantiating c2_single_mismatch: a two-file manifest whose
second entry records a stale checksum for an existing, readable file. -/
theorem c2_witness :
    verify_transfer shaZ
        { rootExists := true,
          files := [("x", { content := .ok [5], size := some 1 }),
                    ("y", { content := .ok [6], size := none })] }
        { checksums := [{ path := "x", checksum := "" }, { path := "y", checksum := "zz" }],
          total_size := 0, file_count := 2 } =
      .ok { success := false,
            message := "Transfer verification failed:\nChecksum mismatch for: y",
            transferred_files := 1, total_size := 1 } := by
  have h := c2_single_mismatch shaZ
    { rootExists := true,
      files := [("x", { content := .ok [5], size := some 1 }),
                ("y", { content := .ok [6], size := none })] }
    { checksums := [{ path := "x", checksum := "" }, { path := "y", checksum := "zz" }],
      total_size := 0, file_count := 2 }
    [{ path := "x", checksum := "" }] [] { path := "y", checksum := "zz" }
    { content := .ok [6], size := none } [6]
    rfl rfl
    (by
      intro x hx
      rw [List.mem_singleton] at hx
      subst hx
      exact ⟨{ content := .ok [5], size := some 1 }, [5], rfl, rfl, rfl⟩)
    (by intro x hx; simp at hx)
    rfl rfl (by decide)
  exact h

/-- C9: when a recorded file exists under the target but recomputing its
checksum fails with an I/O error (and no earlier entry aborted first),
verify_transfer returns Err with the wrapped checksum error, discarding
any discrepancies found for earlier entries. -/
theorem c9_checksum_error_aborts (sha : List Nat → List Nat) (target : TargetFs)
    (m : TransferManifest) (pre post : List FileChecksum) (e : FileChecksum)
    (fd : FileData) (msg : String)
    (hroot : target.rootExists = true)
    (hsplit : m.checksums = pre ++ e :: post)
    (hpre : ∀ x ∈ pre, entryNoAbort target x)
    (hl : lookupFile target e.path = some fd)
    (herr : fd.content = .error msg) :
    verify_transfer sha target m = .error ("Failed to calculate checksum: " ++ msg) := by
  unfold verify_transfer
  rw [if_pos hroot, hsplit, verifyLoop_append]
  obtain ⟨mis2, vs2, vf2, hok⟩ := verifyLoop_noAbort sha target pre [] 0 0 hpre
  rw [hok]
  dsimp only
  simp only [verifyLoop, hl, calculate_file_checksum_error sha fd msg herr]

/-- Witness instantiating c9_checksum_error_aborts: the first manifest
entry is missing from the target (a discrepancy that ends up discarded)
and the second names an unreadable target file. -/
theorem c9_witness :
    verify_transfer shaZ
        { rootExists := true,
          files := [("m", { content := .error "disk error", size := some 1 })] }
        { checksums := [{ path := "gone", checksum := "" }, { path := "m", checksum := "" }],
          total_size := 0, file_count := 2 } =
      .error "Failed to calculate checksum: disk error" := by
  have h := c9_checksum_error_aborts shaZ
    { rootExists := true,
      files := [("m", { content := .error "disk error", size := some 1 })] }
    { checksums := [{ path := "gone", checksum := "" }, { path := "m", checksum := "" }],
      total_size := 0, file_count := 2 }
    [{ path := "gone", checksum := "" }] [] { path := "m", checksum := "" }
    { content := .error "disk error", size := some 1 } "disk error"
    rfl rfl
    (by
      intro x hx
      rw [List.mem_singleton] at hx
      subst hx
      exact Or.inl rfl)
    rfl rfl
  exact h

/-- C3: for an existing source whose walk completes, the manifest
returned by calculate_directory_checksum records exactly the walked files
whose checksum and metadata calls succeed, with file_count equal to the
length of checksums and total_size the sum of the recorded entries
on-disk (metadata) sizes at capture time. -/
theorem c3_manifest_invariant (sha : List Nat → List Nat) (root : FsTree)
    (files : List (String × FileData)) (m : TransferManifest)
    (hw : walk root = .ok files)
    (hm : calculate_directory_checksum sha (some root) = .ok m) :
    m.file_count = m.checksums.length ∧
    m.checksums = (files.filterMap (includedEntry sha)).map Prod.fst ∧
    m.total_size = ((files.filterMap (includedEntry sha)).map Prod.snd).sum := by
  rw [calculate_directory_checksum_ok sha root files hw] at hm
  injection hm with hm2
  subst hm2
  simp

/-- Witness instantiating c3_manifest_invariant on a two-file tree with
one unreadable file (which the manifest silently skips). -/
theorem c3_witness :
    (TransferManifest.mk [{ path := "a.txt", checksum := "" }] 3 1).file_count =
      (TransferManifest.mk [{ path := "a.txt", checksum := "" }] 3 1).checksums.length ∧
    (TransferManifest.mk [{ path := "a.txt", checksum := "" }] 3 1).checksums =
      (([("a.txt", FileData.mk (.ok [1, 2, 3]) (some 3)),
         ("bad.mp3", FileData.mk (.error "Permission denied") (some 7))].filterMap
        (includedEntry shaZ)).map Prod.fst) ∧
    (TransferManifest.mk [{ path := "a.txt", checksum := "" }] 3 1).total_size =
      ((([("a.txt", FileData.mk (.ok [1, 2, 3]) (some 3)),
          ("bad.mp3", FileData.mk (.error "Permission denied") (some 7))].filterMap
        (includedEntry shaZ)).map Prod.snd)).sum := by
  have h := c3_manifest_invariant shaZ
    (.dir "music" none
      [.file "a.txt" { content := .ok [1, 2, 3], size := some 3 },
       .file "bad.mp3" { content := .error "Permission denied", size := some 7 }])
    [("a.txt", { content := .ok [1, 2, 3], size := some 3 }),
     ("bad.mp3", { content := .error "Permission denied", size := some 7 })]
    (TransferManifest.mk [{ path := "a.txt", checksum := "" }] 3 1)
    rfl rfl
  exact h

/-- C8: two enumerations of the same unchanged tree see the same file
multiset, though directory enumeration order is not guaranteed; whenever
two source trees walk to permutations of one file list, the FileChecksum
sequences of the two manifests are permutations of each other — the
recorded path-to-digest sets are identical. -/
theorem c8_manifest_perm (sha : List Nat → List Nat) (t1 t2 : FsTree)
    (fs1 fs2 : List (String × FileData)) (m1 m2 : TransferManifest)
    (h1 : walk t1 = .ok fs1) (h2 : walk t2 = .ok fs2)
    (hperm : fs1.Perm fs2)
    (hm1 : calculate_directory_checksum sha (some t1) = .ok m1)
    (hm2 : calculate_directory_checksum sha (some t2) = .ok m2) :
    m1.checksums.Perm m2.checksums := by
  rw [calculate_directory_checksum_ok sha t1 fs1 h1] at hm1
  rw [calculate_directory_checksum_ok sha t2 fs2 h2] at hm2
  injection hm1 with hm1b
  injection hm2 with hm2b
  subst hm1b
  subst hm2b
  exact (hperm.filterMap (includedEntry sha)).map Prod.fst

/-- Witness instantiating c8_manifest_perm on one directory enumerated in
two different orders. -/
theorem c8_witness :
    List.Perm
      [FileChecksum.mk "a" "", FileChecksum.mk "b" ""]
      [FileChecksum.mk "b" "", FileChecksum.mk "a" ""] := by
  have h := c8_manifest_perm shaZ treeAB treeBA
    [("a", { content := .ok [1], size := some 1 }), ("b", { content := .ok [2], size := some 1 })]
    [("b", { content := .ok [2], size := some 1 }), ("a", { content := .ok [1], size := some 1 })]
    { checksums := [FileChecksum.mk "a" "", FileChecksum.mk "b" ""], total_size := 2, file_count := 2 }
    { checksums := [FileChecksum.mk "b" "", FileChecksum.mk "a" ""], total_size := 2, file_count := 2 }
    rfl rfl (List.Perm.swap _ _ _) rfl rfl
  exact h

/-- C7: for a readable file, the digest the 8 KiB chunked streaming loop
produces equals the one-pass lowercase-hex SHA-256 digest of the whole
content (spec_sha256_hex); any chunk decomposition of the content fed to
the hasher yields the same digest; and (for a well-formed 32-byte
digest) the rendering is a 64-character string of lowercase hex
characters. -/
theorem c7_chunked_digest (sha : List Nat → List Nat) (bs : List Nat) (fd : FileData)
    (hc : fd.content = .ok bs)
    (hlen : (sha bs).length = 32)
    (hbytes : ∀ b ∈ sha bs, b < 256) :
    calculate_file_checksum sha fd = .ok (spec_sha256_hex sha bs) ∧
    (∀ chunks : List (List Nat), chunks.flatten = bs →
      bytesToHex (sha (chunks.foldl (· ++ ·) [])) = spec_sha256_hex sha bs) ∧
    (spec_sha256_hex sha bs).length = 64 ∧
    (∀ c ∈ (spec_sha256_hex sha bs).data, isLowerHexChar c = true) := by
  refine ⟨calculate_file_checksum_ok sha fd bs hc, ?_, ?_, ?_⟩
  · intro chunks hch
    rw [foldl_append_eq, List.nil_append, hch]
    rfl
  · show (bytesToHex (sha bs)).length = 64
    rw [bytesToHex_length, hlen]
  · intro c hc2
    exact bytesToHex_chars _ hbytes c hc2

/-- Witness instantiating c7_chunked_digest with a 32-zero-byte digest
function on a three-byte file. -/
theorem c7_witness :
    calculate_file_checksum sha32 { content := .ok [1, 2, 3], size := some 3 } =
      .ok (spec_sha256_hex sha32 [1, 2, 3]) ∧
    (spec_sha256_hex sha32 [1, 2, 3]).length = 64 := by
  have h := c7_chunked_digest sha32 [1, 2, 3] { content := .ok [1, 2, 3], size := some 3 }
    rfl (by decide) (by decide)
  exact ⟨h.1, h.2.2.1⟩

theorem transferFinish_error_shape (sha : List Nat → List Nat) (target1 : TargetFs)
    (verify : Bool) (manifest : Option TransferManifest) (msg : String)
    (h : transferFinish sha target1 verify manifest = .error msg) :
    msg = "Target path does not exist" ∨
      ∃ s, msg = "Failed to calculate checksum: " ++ s := by
  unfold transferFinish at h
  cases verify with
  | false => simp at h
  | true =>
    cases manifest with
    | none => simp at h
    | some m =>
      dsimp only at h
      rcases hvt : verify_transfer sha target1 m with e | r
      · rw [hvt] at h
        dsimp only at h
        injection h with h2
        rw [← h2]
        exact verify_transfer_error_shape sha target1 m e hvt
      · rw [hvt] at h
        simp at h

/-- C6 fails as stated: `create_archive` ignores the result of appending
an individual file entry, so a tree holding one existing but unreadable
file (whose append fails) produces a successfully returned archive that
silently omits the file, instead of an error. -/
theorem c6_counterexample :
    walkOpt (some srcBad) =
      .ok [("bad.mp3", { content := .error "Permission denied", size := some 7 })] ∧
    create_archive (some srcBad) = .ok [] :=
  ⟨rfl, rfl⟩

/-- C6 (amended): a failure to walk the tree (an unreadable directory)
aborts create_archive with that error, but a failure to append an
individual file entry is silently ignored: the archive is returned
successfully and lists exactly the readable files, omitting the rest. -/
theorem c6_archive_walk_failure_only (source : Option FsTree) :
    (∀ e, walkOpt source = .error e → create_archive source = .error e) ∧
    (∀ files, walkOpt source = .ok files →
      create_archive source = .ok (files.filterMap (fun pf =>
        match pf.2.content with
        | .ok bs => some (pf.1, bs)
        | .error _ => none))) := by
  constructor
  · intro e he
    simp only [create_archive, he]
  · intro files hf
    simp only [create_archive, hf]

/-- Witness instantiating c6_archive_walk_failure_only: an unreadable
directory aborts archive creation, and a readable walk yields the
readable files only. -/
theorem c6_witness :
    create_archive (some (.dir "locked" (some "Access denied") [])) =
      .error "Access denied" ∧
    create_archive (some srcA) = .ok [("a.txt", [1, 2, 3])] := by
  constructor
  · exact (c6_archive_walk_failure_only (some (.dir "locked" (some "Access denied") []))).1
      "Access denied" rfl
  · exact (c6_archive_walk_failure_only (some srcA)).2
      [("a.txt", { content := .ok [1, 2, 3], size := some 3 })] rfl

/-- C4 fails as stated: with create_archive = false and
verify_transfer = false, one file is actually copied (the copy loop
counts 1) yet the returned result reports transferred_files = 0 and
total_size = 0, because the terminal result is built from the absent
manifest rather than the raw copy counters. -/
theorem c4_counterexample :
    transfer_files shaZ (some srcA) { rootExists := true, files := [] }
        { create_archive := false, verify_transfer := false } =
      .ok { success := true, message := "Transfer completed successfully",
            transferred_files := 0, total_size := 0 } ∧
    (copyLoop [("a.txt", { content := .ok [1, 2, 3], size := some 3 })] 0 0 []).1 = 1 :=
  ⟨rfl, rfl⟩

/-- C4 (amended): when neither an archive nor verification is requested
and the walk completes with at least one file copied, transfer_files
returns Ok, but reports transferred_files = 0 and total_size = 0: the
raw copy counters are consulted only for the zero-copies check and are
not propagated into the result. -/
theorem c4_unverified_counts_not_reported (sha : List Nat → List Nat)
    (source : Option FsTree) (target : TargetFs) (options : TransferOptions)
    (files : List (String × FileData))
    (hv : options.verify_transfer = false)
    (ha : options.create_archive = false)
    (hw : walkOpt source = .ok files)
    (hcop : (copyLoop files 0 0 target.files).1 ≠ 0) :
    transfer_files sha source target options =
      .ok { success := true, message := "Transfer completed successfully",
            transferred_files := 0, total_size := 0 } := by
  rcases hcl : copyLoop files 0 0 target.files with ⟨copied, csize, newFiles⟩
  rw [hcl] at hcop
  simp only [transfer_files, hv, ha, Bool.false_eq_true, if_false, hw, hcl]
  rw [if_neg (by simpa using hcop)]
  simp [transferFinish]

/-- Witness instantiating c4_unverified_counts_not_reported on a
one-file source copied into an empty target. -/
theorem c4_witness :
    transfer_files shaZ (some srcA) { rootExists := true, files := [] }
        { create_archive := false, verify_transfer := false } =
      .ok { success := true, message := "Transfer completed successfully",
            transferred_files := 0, total_size := 0 } := by
  have h := c4_unverified_counts_not_reported shaZ (some srcA)
    { rootExists := true, files := [] }
    { create_archive := false, verify_transfer := false }
    [("a.txt", { content := .ok [1, 2, 3], size := some 3 })]
    rfl rfl rfl (by decide)
  exact h

/-- C5: for a direct-copy invocation (create_archive = false) on an
existing source whose walk completes, transfer_files returns the error
"No files were copied" exactly when the copy loop copied zero files; an
individual file-copy failure only lowers the count and no other
per-file failure makes the operation fail with this error. -/
theorem c5_no_files_copied_iff (sha : List Nat → List Nat) (source : FsTree)
    (target : TargetFs) (options : TransferOptions)
    (files : List (String × FileData))
    (ha : options.create_archive = false)
    (hw : walk source = .ok files) :
    (transfer_files sha (some source) target options = .error "No files were copied")
      ↔ (copyLoop files 0 0 target.files).1 = 0 := by
  have hwo : walkOpt (some source) = .ok files := hw
  rcases hcl : copyLoop files 0 0 target.files with ⟨copied, csize, newFiles⟩
  dsimp only
  cases hv : options.verify_transfer with
  | false =>
    simp only [transfer_files, hv, ha, Bool.false_eq_true, if_false, hwo, hcl]
    by_cases hcop : copied = 0
    · rw [if_pos hcop]
      simp [hcop]
    · rw [if_neg hcop]
      simp only [transferFinish]
      constructor
      · intro hx
        exact absurd hx (by simp)
      · intro hx
        exact absurd hx hcop
  | true =>
    simp only [transfer_files, hv, ha, Bool.false_eq_true, if_false, if_true,
      calculate_directory_checksum_ok sha source files hw, hwo, hcl]
    by_cases hcop : copied = 0
    · rw [if_pos hcop]
      simp [hcop]
    · rw [if_neg hcop]
      constructor
      · intro hx
        rcases transferFinish_error_shape sha _ _ _ _ hx with h3 | ⟨s, h3⟩
        · exact absurd h3.symm target_error_ne_no_files
        · exact absurd h3.symm (checksum_error_ne_no_files s)
      · intro hx
        exact absurd hx hcop

/-- Witness instantiating c5_no_files_copied_iff: a source directory
with no files at all makes the direct-copy transfer fail with the
"No files were copied" error. -/
theorem c5_witness :
    transfer_files shaZ (some (.dir "empty" none [])) { rootExists := true, files := [] }
        { create_archive := false, verify_transfer := false } =
      .error "No files were copied" := by
  have h := c5_no_files_copied_iff shaZ (.dir "empty" none [])
    { rootExists := true, files := [] }
    { create_archive := false, verify_transfer := false }
    [] rfl rfl
  exact h.mpr rfl
